import Mathlib

set_option maxRecDepth 8192

/-!
Shallow embedding of src/api/index.py (a FastAPI + boto3 upload service).

Each HTTP handler is translated as a pure function of the boto3 client's
behaviour (an oracle record of the operations the backend would answer),
the configured bucket, the wall-clock reading taken inside the handler, and
the parsed request body. Besides the HTTP-level result, each handler also
returns the ordered list of s3_client calls it issued, so that properties
about which Storage Gateway calls are (or are not) made can be stated.
-/

/-- HTTP-level result of a FastAPI endpoint: either the JSON body or an
HTTPException carrying a status code and a detail string. -/
inductive HttpResult (α : Type) where
  | ok (body : α)
  | httpError (statusCode : Nat) (detail : String)
deriving Repr, DecidableEq

/-- True when the endpoint returned a JSON body rather than an HTTPException. -/
def HttpResult.isOk {α : Type} : HttpResult α → Bool
  | .ok _ => true
  | .httpError _ _ => false

/-- Exceptions caught by the blanket handlers in src/api/index.py: a fastapi
HTTPException (which subclasses Exception, so the handler's own 400 is caught
by its except clause too), or a plain Exception with a message (boto3 client
errors, the hand-raised Exception in notify_upload). -/
inductive Exc where
  | httpExc (statusCode : Nat) (detail : String)
  | genericExc (msg : String)
deriving Repr, DecidableEq

/-- Python str(e) for those exceptions: starlette formats an HTTPException as
"code: detail"; a plain Exception formats as its message. -/
def Exc.str : Exc → String
  | .httpExc c d => toString c ++ ": " ++ d
  | .genericExc m => m

/-- Decimal digit character, least significant digit of n. -/
def digitChar (n : Nat) : Char := Char.ofNat (48 + n % 10)

/-- Zero-padded fixed-width decimal rendering, most significant digit first;
models the zero-padded numeric strftime directives for in-range field values
(year at most 9999, month, day, hour, minute, second two digits,
microsecond six digits, exactly the ranges datetime guarantees). -/
def natPad : Nat → Nat → List Char
  | 0, _ => []
  | w + 1, n => natPad w (n / 10) ++ [digitChar (n % 10)]

/-- Wall-clock reading of datetime.now with the fields the format uses. -/
structure Timestamp where
  year : Nat
  month : Nat
  day : Nat
  hour : Nat
  minute : Nat
  second : Nat
  microsecond : Nat
deriving Repr, DecidableEq

/-- datetime.now().strftime of the Y m d H M S f format used at
src/api/index.py:148 and :176: four-digit year, two-digit month, day, hour,
minute and second, six-digit microsecond, all zero padded. -/
def timestampStr (t : Timestamp) : List Char :=
  natPad 4 t.year ++ natPad 2 t.month ++ natPad 2 t.day ++
    natPad 2 t.hour ++ natPad 2 t.minute ++ natPad 2 t.second ++
    natPad 6 t.microsecond

/-- Two clock readings within the same wall-clock second. -/
def sameSecond (a b : Timestamp) : Prop :=
  a.year = b.year ∧ a.month = b.month ∧ a.day = b.day ∧
    a.hour = b.hour ∧ a.minute = b.minute ∧ a.second = b.second

/-- Python str.lower, restricted to ASCII (all whitelisted extensions are
ASCII, and Char.toLower lowers exactly the ASCII uppercase letters). -/
def pyLower (s : String) : String := String.mk (s.data.map Char.toLower)

/-- Extension part of os.path.splitext on a char list, posixpath semantics:
the suffix starting at the last dot that lies after the last path separator
and after at least one non-dot leading character of the basename. -/
def splitextExtL (p : List Char) : List Char :=
  let base := (p.reverse.takeWhile (fun c => c != '/')).reverse
  let core := base.dropWhile (fun c => c == '.')
  if core.contains '.' then
    '.' :: (core.reverse.takeWhile (fun c => c != '.')).reverse
  else []

/-- Extension part of os.path.splitext on a Python string. -/
def splitextExt (p : String) : String := String.mk (splitextExtL p.data)

/-- ALLOWED_EXTENSIONS at src/api/index.py:38. -/
def ALLOWED_EXTENSIONS : List String :=
  [".epub", ".pdf", ".mobi", ".azw", ".azw3", ".doc", ".docx", ".zip"]

/-- CONTENT_TYPES at src/api/index.py:48. -/
def CONTENT_TYPES : List (String × String) :=
  [(".epub", "application/epub+zip"),
   (".pdf", "application/pdf"),
   (".mobi", "application/x-mobipocket-ebook"),
   (".azw", "application/vnd.amazon.ebook"),
   (".azw3", "application/vnd.amazon.ebook"),
   (".doc", "application/msword"),
   (".docx", "application/vnd.openxmlformats-officedocument.wordprocessingml.document"),
   (".zip", "application/zip")]

/-- get_content_type at src/api/index.py:84: the extension of the lowercased
filename looked up in CONTENT_TYPES, falling back to the generic binary type
for unknown extensions. -/
def get_content_type (filename : String) : String :=
  let extension := splitextExt (pyLower filename)
  match CONTENT_TYPES.find? (fun p => p.1 == extension) with
  | some p => p.2
  | none => "application/octet-stream"

/-- A Python dict of strings (the per-part dicts of
MultipartUploadComplete.parts, typed List of Dict of str to str in the
source), as an association list. -/
abbrev PartDict := List (String × String)

/-- One s3_client call as issued by the handlers, with its arguments. -/
inductive S3Call where
  | presignPutObject (bucket key contentType : String) (expiresIn : Nat)
  | createMultipartUpload (bucket key contentType : String)
  | presignUploadPart (bucket key uploadId : String) (partNumber : Nat) (expiresIn : Nat)
  | completeMultipartUpload (bucket key uploadId : String) (parts : List PartDict)
  | abortMultipartUpload (bucket key uploadId : String)
deriving Repr, DecidableEq

/-- Behaviour of the boto3 S3 client as observed by one handler invocation:
presigning is a local signature computation returning a URL string; the
network operations may fail with a client error whose str is the message. -/
structure S3Client where
  presignPutObject : String → String → String → Nat → String
  createMultipartUpload : String → String → String → Except String String
  presignUploadPart : String → String → String → Nat → Nat → String
  completeMultipartUpload : String → String → String → List PartDict → Except String Unit
  abortMultipartUpload : String → String → String → Except String Unit

/-- UploadRequest pydantic model (src/api/index.py:60). -/
structure UploadRequest where
  filename : String
deriving Repr, DecidableEq

/-- MultipartUploadRequest pydantic model (src/api/index.py:71). -/
structure MultipartUploadRequest where
  filename : String
  contentType : String
deriving Repr, DecidableEq

/-- MultipartUploadComplete pydantic model (src/api/index.py:75). -/
structure MultipartUploadComplete where
  filename : String
  uploadId : String
  parts : List PartDict
deriving Repr, DecidableEq

/-- MultipartUploadAbort pydantic model (src/api/index.py:80). -/
structure MultipartUploadAbort where
  filename : String
  uploadId : String
deriving Repr, DecidableEq

/-- UploadedFile pydantic model (src/api/index.py:63). -/
structure UploadedFile where
  filename : String
  originalName : String
  filesize : Int
deriving Repr, DecidableEq

/-- JSON body returned by generate_upload_url on success. -/
structure GenerateUploadUrlResponse where
  upload_url : String
  filename : String
deriving Repr, DecidableEq

/-- JSON body returned by initiate_multipart_upload on success. -/
structure InitiateMultipartResponse where
  uploadId : String
  urls : List String
  key : String
deriving Repr, DecidableEq

/-- JSON body of the status responses. -/
structure StatusResponse where
  status : String
deriving Repr, DecidableEq

/-- total_parts at src/api/index.py:190. -/
def total_parts : Nat := 10000

/-- Object key minted at initiation, src/api/index.py:176-177: the f-string
uploads slash timestamp underscore filename. -/
def multipartKey (now : Timestamp) (filename : String) : String :=
  "uploads/" ++ String.mk (timestampStr now) ++ "_" ++ filename

/-- generate_upload_url endpoint (src/api/index.py:139-171). The body is
wrapped in try/except Exception, so the HTTPException(400, "Invalid file
type") raised for a bad extension is itself caught by the blanket handler at
line 169 and re-raised as HTTPException(500, str(e)). The second component
records the s3_client calls the handler issued, in order. -/
def generate_upload_url (s3 : S3Client) (bucket : String) (now : Timestamp)
    (req : UploadRequest) : HttpResult GenerateUploadUrlResponse × List S3Call :=
  let file_extension := splitextExt (pyLower req.filename)
  if file_extension ∈ ALLOWED_EXTENSIONS then
    let timestamp := String.mk (timestampStr now)
    let filename := timestamp ++ "_" ++ req.filename
    let content_type := get_content_type req.filename
    let upload_url := s3.presignPutObject bucket ("uploads/" ++ filename) content_type 86400
    (.ok ⟨upload_url, filename⟩,
      [.presignPutObject bucket ("uploads/" ++ filename) content_type 86400])
  else
    (.httpError 500 (Exc.str (.httpExc 400 "Invalid file type")), [])

/-- initiate_multipart_upload endpoint (src/api/index.py:173-212): no
validation of any kind; mints the key, opens the multipart upload, then
presigns one URL per part number 1..total_parts, each expiring in 86400
seconds. The client-supplied contentType field of the request is never read;
the registered content type is get_content_type of the filename. -/
def initiate_multipart_upload (s3 : S3Client) (bucket : String) (now : Timestamp)
    (req : MultipartUploadRequest) : HttpResult InitiateMultipartResponse × List S3Call :=
  let key := multipartKey now req.filename
  let content_type := get_content_type req.filename
  match s3.createMultipartUpload bucket key content_type with
  | .error e =>
      (.httpError 500 (Exc.str (.genericExc e)),
        [.createMultipartUpload bucket key content_type])
  | .ok upload_id =>
      let partNumbers := (List.range total_parts).map (· + 1)
      let urls := partNumbers.map (fun n => s3.presignUploadPart bucket key upload_id n 86400)
      (.ok ⟨upload_id, urls, key⟩,
        .createMultipartUpload bucket key content_type ::
          partNumbers.map (fun n => .presignUploadPart bucket key upload_id n 86400))

/-- complete_multipart_upload endpoint (src/api/index.py:214-226): no session
registry, no state machine, no part-list validation; the key is rebuilt as
uploads slash request.filename and the part list is forwarded verbatim to the
backend; any exception comes back as HTTPException(500, str(e)). -/
def complete_multipart_upload (s3 : S3Client) (bucket : String)
    (req : MultipartUploadComplete) : HttpResult StatusResponse × List S3Call :=
  match s3.completeMultipartUpload bucket ("uploads/" ++ req.filename) req.uploadId req.parts with
  | .ok _ =>
      (.ok ⟨"success"⟩,
        [.completeMultipartUpload bucket ("uploads/" ++ req.filename) req.uploadId req.parts])
  | .error e =>
      (.httpError 500 (Exc.str (.genericExc e)),
        [.completeMultipartUpload bucket ("uploads/" ++ req.filename) req.uploadId req.parts])

/-- abort_multipart_upload endpoint (src/api/index.py:228-239): same shape as
completion, delegating unconditionally to the backend each time. -/
def abort_multipart_upload (s3 : S3Client) (bucket : String)
    (req : MultipartUploadAbort) : HttpResult StatusResponse × List S3Call :=
  match s3.abortMultipartUpload bucket ("uploads/" ++ req.filename) req.uploadId with
  | .ok _ =>
      (.ok ⟨"success"⟩,
        [.abortMultipartUpload bucket ("uploads/" ++ req.filename) req.uploadId])
  | .error e =>
      (.httpError 500 (Exc.str (.genericExc e)),
        [.abortMultipartUpload bucket ("uploads/" ++ req.filename) req.uploadId])

/-- send_bulk_admin_notification (src/api/index.py:89-130): formats and sends
the email over SMTP, returning True on success, and catches every exception
to return False. The SMTP interaction is external and is abstracted by the
smtpOk oracle; the return value depends only on whether the send raised. -/
def send_bulk_admin_notification (smtpOk : Bool) (files : List UploadedFile) : Bool :=
  let _ := files
  smtpOk

/-- notify_upload endpoint (src/api/index.py:241-250): raises a plain
Exception("Failed to send email notification") when the send failed, which
the blanket handler converts to HTTPException(500, str(e)). -/
def notify_upload (smtpOk : Bool) (data : List UploadedFile) : HttpResult StatusResponse :=
  let success := send_bulk_admin_notification smtpOk data
  if success then .ok ⟨"success"⟩
  else .httpError 500 (Exc.str (.genericExc "Failed to send email notification"))

/-- Backend that accepts every operation; presigned URLs are a readable
encoding of their parameters, upload identifiers are the constant UID. -/
def s3ok : S3Client where
  presignPutObject := fun _ key _ _ => "https://s3/put/" ++ key
  createMultipartUpload := fun _ _ _ => .ok "UID"
  presignUploadPart := fun _ key _ n _ => "https://s3/part/" ++ key ++ "/" ++ toString n
  completeMultipartUpload := fun _ _ _ _ => .ok ()
  abortMultipartUpload := fun _ _ _ => .ok ()

/-- Backend state once the multipart upload has already been completed or
aborted: S3 answers further complete/abort calls on it with the NoSuchUpload
client error. -/
def s3noSuchUpload : S3Client where
  presignPutObject := fun _ key _ _ => "https://s3/put/" ++ key
  createMultipartUpload := fun _ _ _ => .ok "UID"
  presignUploadPart := fun _ key _ n _ => "https://s3/part/" ++ key ++ "/" ++ toString n
  completeMultipartUpload := fun _ _ _ _ =>
    .error "An error occurred (NoSuchUpload) when calling the CompleteMultipartUpload operation: The specified upload does not exist."
  abortMultipartUpload := fun _ _ _ =>
    .error "An error occurred (NoSuchUpload) when calling the AbortMultipartUpload operation: The specified upload does not exist."

/-- Backend whose failures carry internal diagnostic text, as boto3 client
error messages do. -/
def s3leak : S3Client where
  presignPutObject := fun _ key _ _ => "https://s3/put/" ++ key
  createMultipartUpload := fun _ _ _ =>
    .error "boto3 internal: endpoint https://bucket.s3.amazonaws.com, AWSAccessKeyId AKIAEXAMPLE"
  presignUploadPart := fun _ key _ n _ => "https://s3/part/" ++ key ++ "/" ++ toString n
  completeMultipartUpload := fun _ _ _ _ =>
    .error "boto3 internal: endpoint https://bucket.s3.amazonaws.com, AWSAccessKeyId AKIAEXAMPLE"
  abortMultipartUpload := fun _ _ _ =>
    .error "boto3 internal: endpoint https://bucket.s3.amazonaws.com, AWSAccessKeyId AKIAEXAMPLE"

/-- Backend on which every network operation fails with the message boom. -/
def s3fail : S3Client where
  presignPutObject := fun _ key _ _ => "https://s3/put/" ++ key
  createMultipartUpload := fun _ _ _ => .error "boom"
  presignUploadPart := fun _ key _ n _ => "https://s3/part/" ++ key ++ "/" ++ toString n
  completeMultipartUpload := fun _ _ _ _ => .error "boom"
  abortMultipartUpload := fun _ _ _ => .error "boom"

/-- A concrete wall-clock reading used by witnesses and counterexamples. -/
def ts0 : Timestamp := ⟨2025, 3, 14, 9, 26, 53, 589793⟩

/-- Part numbers of the presign-upload-part calls in a trace, in order. -/
def presignPartNumbers (t : List S3Call) : List Nat :=
  t.filterMap fun c => match c with
    | .presignUploadPart _ _ _ n _ => some n
    | _ => none

/-- Expiry horizons of the presign-upload-part calls in a trace, in order. -/
def presignExpiries (t : List S3Call) : List Nat :=
  t.filterMap fun c => match c with
    | .presignUploadPart _ _ _ _ e => some e
    | _ => none

/-- The success payload of initiation against s3ok at ts0 for report.pdf. -/
def initResp0 : InitiateMultipartResponse :=
  ⟨"UID",
    ((List.range total_parts).map (· + 1)).map
      (fun n => s3ok.presignUploadPart "blacx" (multipartKey ts0 "report.pdf") "UID" n 86400),
    multipartKey ts0 "report.pdf"⟩

/-! Helper lemmas about strings, digit rendering and trace projections. -/

theorem string_append_data (s t : String) : (s ++ t).data = s.data ++ t.data := rfl

theorem string_mk_data (l : List Char) : (String.mk l).data = l := rfl

theorem string_length_append (s t : String) : (s ++ t).length = s.length + t.length :=
  List.length_append s.data t.data

theorem digitChar_injOn :
    ∀ a, a < 10 → ∀ b, b < 10 → digitChar a = digitChar b → a = b := by decide

theorem natPad_inj (w : Nat) :
    ∀ a b, a < 10 ^ w → b < 10 ^ w → natPad w a = natPad w b → a = b := by
  induction w with
  | zero =>
    intro a b ha hb _
    simp only [pow_zero, Nat.lt_one_iff] at ha hb
    omega
  | succ w ih =>
    intro a b ha hb h
    simp only [natPad] at h
    obtain ⟨h1, h2⟩ := List.append_inj' h rfl
    injection h2 with hx _
    have hd : a % 10 = b % 10 :=
      digitChar_injOn _ (Nat.mod_lt _ (by norm_num)) _ (Nat.mod_lt _ (by norm_num)) hx
    have haq : a / 10 < 10 ^ w :=
      (Nat.div_lt_iff_lt_mul (by norm_num)).mpr (by rw [← pow_succ]; exact ha)
    have hbq : b / 10 < 10 ^ w :=
      (Nat.div_lt_iff_lt_mul (by norm_num)).mpr (by rw [← pow_succ]; exact hb)
    have hq : a / 10 = b / 10 := ih _ _ haq hbq h1
    omega

theorem multipartKey_inj_micro (t1 t2 : Timestamp) (f : String)
    (hs : sameSecond t1 t2)
    (h1 : t1.microsecond < 1000000) (h2 : t2.microsecond < 1000000)
    (hm : t1.microsecond ≠ t2.microsecond) :
    multipartKey t1 f ≠ multipartKey t2 f := by
  intro h
  obtain ⟨hy, hmo, hdy, hh, hmi, hse⟩ := hs
  have hd := congrArg String.data h
  simp only [multipartKey, string_append_data, string_mk_data, timestampStr,
    List.append_assoc] at hd
  rw [hy, hmo, hdy, hh, hmi, hse] at hd
  have hd1 := List.append_cancel_left hd
  have hd2 := List.append_cancel_left hd1
  have hd3 := List.append_cancel_left hd2
  have hd4 := List.append_cancel_left hd3
  have hd5 := List.append_cancel_left hd4
  have hd6 := List.append_cancel_left hd5
  have hd7 := List.append_cancel_left hd6
  have hd8 := List.append_cancel_right hd7
  have hp : (10 : Nat) ^ 6 = 1000000 := by norm_num
  exact hm (natPad_inj 6 _ _ (by rw [hp]; exact h1) (by rw [hp]; exact h2) hd8)

theorem presignPartNumbers_cons_create (bucket key ct : String) (t : List S3Call) :
    presignPartNumbers (S3Call.createMultipartUpload bucket key ct :: t) =
      presignPartNumbers t := by
  simp [presignPartNumbers, List.filterMap_cons]

theorem presignPartNumbers_presigns (bucket key uid : String) (l : List Nat) :
    presignPartNumbers (l.map fun n => S3Call.presignUploadPart bucket key uid n 86400) = l := by
  induction l with
  | nil => rfl
  | cons a t ih =>
    simp only [List.map_cons, presignPartNumbers, List.filterMap_cons] at ih ⊢
    simpa using ih

theorem presignExpiries_cons_create (bucket key ct : String) (t : List S3Call) :
    presignExpiries (S3Call.createMultipartUpload bucket key ct :: t) =
      presignExpiries t := by
  simp [presignExpiries, List.filterMap_cons]

theorem presignExpiries_presigns (bucket key uid : String) (l : List Nat) :
    presignExpiries (l.map fun n => S3Call.presignUploadPart bucket key uid n 86400) =
      List.replicate l.length 86400 := by
  induction l with
  | nil => rfl
  | cons a t ih =>
    simp only [List.map_cons, presignExpiries, List.filterMap_cons,
      List.length_cons, List.replicate_succ] at ih ⊢
    simpa using ih

/-! Claim theorems. -/

/-- Claim C1, counterexample: the first CompleteSession on a session
succeeds, and a second identical CompleteSession — the backend now answers
NoSuchUpload for the finished upload — still issues a Storage Gateway
CompleteMultipartUpload call and fails with a generic 500, not with an
InvalidStateTransition rejection: the handler keeps no session state and
re-invokes the Gateway on every call. -/
theorem c1_counterexample :
    (complete_multipart_upload s3ok "blacx"
      ⟨"f.pdf", "UID", [[("PartNumber", "1"), ("ETag", "abc123")]]⟩).1 = .ok ⟨"success"⟩ ∧
    (complete_multipart_upload s3noSuchUpload "blacx"
      ⟨"f.pdf", "UID", [[("PartNumber", "1"), ("ETag", "abc123")]]⟩).2 =
      [.completeMultipartUpload "blacx" "uploads/f.pdf" "UID"
        [[("PartNumber", "1"), ("ETag", "abc123")]]] ∧
    (complete_multipart_upload s3noSuchUpload "blacx"
      ⟨"f.pdf", "UID", [[("PartNumber", "1"), ("ETag", "abc123")]]⟩).1 =
      .httpError 500 "An error occurred (NoSuchUpload) when calling the CompleteMultipartUpload operation: The specified upload does not exist." :=
  ⟨rfl, by decide, rfl⟩

/-- Claim C1, amended: the service keeps no session registry and no state
machine; every CompleteSession and every AbortSession call unconditionally
issues exactly one Storage Gateway call (so a repeated completion re-invokes
the Gateway), and the only failure shape either operation can produce is a
generic HTTP 500 — there is no InvalidStateTransition rejection and no
terminal-state bookkeeping. -/
theorem c1_amended (s3 : S3Client) (bucket : String)
    (reqC : MultipartUploadComplete) (reqA : MultipartUploadAbort) :
    (complete_multipart_upload s3 bucket reqC).2.length = 1 ∧
    (abort_multipart_upload s3 bucket reqA).2.length = 1 ∧
    ((complete_multipart_upload s3 bucket reqC).1 = .ok ⟨"success"⟩ ∨
      ∃ d, (complete_multipart_upload s3 bucket reqC).1 = .httpError 500 d) ∧
    ((abort_multipart_upload s3 bucket reqA).1 = .ok ⟨"success"⟩ ∨
      ∃ d, (abort_multipart_upload s3 bucket reqA).1 = .httpError 500 d) := by
  unfold complete_multipart_upload abort_multipart_upload
  rcases s3.completeMultipartUpload bucket ("uploads/" ++ reqC.filename) reqC.uploadId reqC.parts
      with e | u <;>
    rcases s3.abortMultipartUpload bucket ("uploads/" ++ reqA.filename) reqA.uploadId
      with e' | u' <;>
    simp

/-- Claim C2, counterexample: CompleteSession with an empty part list is not
rejected locally with InvalidPartList; the handler forwards the empty list
to the Storage Gateway in one CompleteMultipartUpload call and, when the
backend accepts, reports success. -/
theorem c2_counterexample :
    (complete_multipart_upload s3ok "blacx" ⟨"f.pdf", "UID", []⟩).1 = .ok ⟨"success"⟩ ∧
    (complete_multipart_upload s3ok "blacx" ⟨"f.pdf", "UID", []⟩).2 =
      [.completeMultipartUpload "blacx" "uploads/f.pdf" "UID" []] :=
  ⟨rfl, by decide⟩

/-- Claim C2, amended: the handler performs no structural validation of the
part list; every request's part list — empty, non-increasing or digest-less
alike — is forwarded verbatim to the Storage Gateway in a single call made
before any check, and the response is success exactly when the Gateway
accepts. -/
theorem c2_amended (s3 : S3Client) (bucket fn uid : String) (parts : List PartDict) :
    (complete_multipart_upload s3 bucket ⟨fn, uid, parts⟩).2 =
      [.completeMultipartUpload bucket ("uploads/" ++ fn) uid parts] ∧
    ((complete_multipart_upload s3 bucket ⟨fn, uid, parts⟩).1 = .ok ⟨"success"⟩ ↔
      s3.completeMultipartUpload bucket ("uploads/" ++ fn) uid parts = .ok ()) := by
  unfold complete_multipart_upload
  rcases h : s3.completeMultipartUpload bucket ("uploads/" ++ fn) uid parts with e | u <;>
    simp [h]

/-- Claim C3, counterexample: when the email delivery fails, the notify
endpoint does not return a 200 success with a warning in the body — it
raises, and the blanket handler returns HTTP 500 with the failure message as
the detail. -/
theorem c3_counterexample :
    notify_upload false [⟨"20250314092653589793_a.pdf", "a.pdf", 1024⟩] =
      .httpError 500 "Failed to send email notification" := rfl

/-- Claim C3, amended: notify_upload returns 200 success exactly when the
email delivery succeeds; a delivery failure is surfaced as HTTP 500 with
detail Failed to send email notification — the same error shape the upload
endpoints use — rather than as a warning inside a 200 response. -/
theorem c3_amended (smtpOk : Bool) (files : List UploadedFile) :
    notify_upload smtpOk files =
      (if smtpOk then .ok ⟨"success"⟩
       else .httpError 500 "Failed to send email notification") := by
  cases smtpOk <;> rfl

/-- Claim C4, counterexample: the extension .exe is outside the whitelist,
yet initiate_multipart_upload performs no extension validation: it opens a
multipart upload with the Storage Gateway for virus.exe and returns success. -/
theorem c4_counterexample :
    ALLOWED_EXTENSIONS.contains (splitextExt (pyLower "virus.exe")) = false ∧
    (initiate_multipart_upload s3ok "blacx" ts0 ⟨"virus.exe", "application/pdf"⟩).2.head? =
      some (.createMultipartUpload "blacx" (multipartKey ts0 "virus.exe")
        "application/octet-stream") ∧
    HttpResult.isOk
      (initiate_multipart_upload s3ok "blacx" ts0 ⟨"virus.exe", "application/pdf"⟩).1 = true :=
  ⟨by decide, by decide, rfl⟩

/-- Claim C4, amended: only the single-shot form validates the extension.
For every filename with a disallowed extension, generate_upload_url makes no
Storage Gateway call and fails — as HTTP 500 with detail
400: Invalid file type, because its intended 400 HTTPException is swallowed
by the blanket exception handler — while initiate_multipart_upload performs
no extension validation at all and asks the Gateway to open a multipart
upload for every filename. -/
theorem c4_amended :
    (∀ (s3 : S3Client) (bucket : String) (now : Timestamp) (req : UploadRequest),
      splitextExt (pyLower req.filename) ∉ ALLOWED_EXTENSIONS →
      generate_upload_url s3 bucket now req =
        (.httpError 500 "400: Invalid file type", [])) ∧
    (∀ (s3 : S3Client) (bucket : String) (now : Timestamp) (req : MultipartUploadRequest),
      (initiate_multipart_upload s3 bucket now req).2.head? =
        some (.createMultipartUpload bucket (multipartKey now req.filename)
          (get_content_type req.filename))) := by
  constructor
  · intro s3 bucket now req h
    unfold generate_upload_url
    rw [if_neg h]
    rfl
  · intro s3 bucket now req
    dsimp only [initiate_multipart_upload]
    cases s3.createMultipartUpload bucket (multipartKey now req.filename)
      (get_content_type req.filename) <;> rfl

/-- Claim C4, witness: generate_upload_url rejects virus.exe with no Storage
Gateway call. -/
theorem c4_witness :
    generate_upload_url s3ok "blacx" ts0 ⟨"virus.exe"⟩ =
      (.httpError 500 "400: Invalid file type", []) :=
  c4_amended.1 s3ok "blacx" ts0 ⟨"virus.exe"⟩ (by decide)

/-- Claim C5: for every filename with an allowed extension (the handler in
fact does this for every filename), once the Gateway opens the upload,
initiation returns the total_parts-length ordered URL sequence and presigns
exactly total_parts part URLs whose part numbers are strictly increasing
1..total_parts, each with the fixed 86400-second expiry; total_parts is
10000. -/
theorem c5_theorem (s3 : S3Client) (bucket : String) (now : Timestamp)
    (req : MultipartUploadRequest) (uid : String)
    (hext : splitextExt (pyLower req.filename) ∈ ALLOWED_EXTENSIONS)
    (hok : s3.createMultipartUpload bucket (multipartKey now req.filename)
      (get_content_type req.filename) = .ok uid) :
    total_parts = 10000 ∧
    (∃ r, (initiate_multipart_upload s3 bucket now req).1 = .ok r ∧
      r.urls.length = total_parts) ∧
    presignPartNumbers (initiate_multipart_upload s3 bucket now req).2 =
      (List.range total_parts).map (· + 1) ∧
    List.Pairwise (· < ·)
      (presignPartNumbers (initiate_multipart_upload s3 bucket now req).2) ∧
    presignExpiries (initiate_multipart_upload s3 bucket now req).2 =
      List.replicate total_parts 86400 := by
  have _ := hext
  have hred : initiate_multipart_upload s3 bucket now req =
      (.ok ⟨uid,
          ((List.range total_parts).map (· + 1)).map
            (fun n => s3.presignUploadPart bucket (multipartKey now req.filename) uid n 86400),
          multipartKey now req.filename⟩,
        .createMultipartUpload bucket (multipartKey now req.filename)
            (get_content_type req.filename) ::
          ((List.range total_parts).map (· + 1)).map
            (fun n => S3Call.presignUploadPart bucket (multipartKey now req.filename)
              uid n 86400)) := by
    dsimp only [initiate_multipart_upload]
    rw [hok]
  rw [hred]
  refine ⟨rfl, ⟨_, rfl, by simp⟩, ?_, ?_, ?_⟩
  · rw [presignPartNumbers_cons_create, presignPartNumbers_presigns]
  · rw [presignPartNumbers_cons_create, presignPartNumbers_presigns]
    exact List.Pairwise.map _ (fun a b h => by omega) (List.pairwise_lt_range total_parts)
  · rw [presignExpiries_cons_create, presignExpiries_presigns]
    simp

/-- Claim C5, witness: the property at a concrete allowed filename against
the accepting backend. -/
theorem c5_witness :
    total_parts = 10000 ∧
    (∃ r, (initiate_multipart_upload s3ok "blacx" ts0 ⟨"report.pdf", ""⟩).1 = .ok r ∧
      r.urls.length = total_parts) ∧
    presignPartNumbers (initiate_multipart_upload s3ok "blacx" ts0 ⟨"report.pdf", ""⟩).2 =
      (List.range total_parts).map (· + 1) ∧
    List.Pairwise (· < ·)
      (presignPartNumbers (initiate_multipart_upload s3ok "blacx" ts0 ⟨"report.pdf", ""⟩).2) ∧
    presignExpiries (initiate_multipart_upload s3ok "blacx" ts0 ⟨"report.pdf", ""⟩).2 =
      List.replicate total_parts 86400 :=
  c5_theorem s3ok "blacx" ts0 ⟨"report.pdf", ""⟩ "UID" (by decide) rfl

/-- Claim C6, counterexample: the sole collision-avoidance mechanism is the
microsecond reading of the wall clock, so two session-creation calls that
observe the same microsecond reading — they certainly fall within the same
wall-clock second — derive the same object key, not distinct ones. -/
theorem c6_counterexample :
    sameSecond ts0 ts0 ∧
    multipartKey ts0 "book.pdf" = multipartKey ts0 "book.pdf" :=
  ⟨⟨rfl, rfl, rfl, rfl, rfl, rfl⟩, rfl⟩

/-- Claim C6, amended: every multipart object key follows the pattern
uploads slash timestamp underscore originalFilename with a
microsecond-resolution timestamp, and two creation calls with identical
filenames in the same wall-clock second derive distinct keys provided their
microsecond clock readings differ; with identical readings (possible under
burst concurrency or a coarse clock) the keys coincide. -/
theorem c6_amended :
    (∀ now fn, multipartKey now fn =
      "uploads/" ++ String.mk (timestampStr now) ++ "_" ++ fn) ∧
    (∀ t1 t2 fn, sameSecond t1 t2 →
      t1.microsecond < 1000000 → t2.microsecond < 1000000 →
      t1.microsecond ≠ t2.microsecond →
      multipartKey t1 fn ≠ multipartKey t2 fn) :=
  ⟨fun _ _ => rfl,
   fun t1 t2 fn hs h1 h2 hm => multipartKey_inj_micro t1 t2 fn hs h1 h2 hm⟩

/-- Claim C6, witness: two same-second readings one microsecond apart give
distinct keys for the same filename. -/
theorem c6_witness :
    multipartKey ⟨2025, 3, 14, 9, 26, 53, 1⟩ "book.pdf" ≠
      multipartKey ⟨2025, 3, 14, 9, 26, 53, 2⟩ "book.pdf" :=
  c6_amended.2 ⟨2025, 3, 14, 9, 26, 53, 1⟩ ⟨2025, 3, 14, 9, 26, 53, 2⟩ "book.pdf"
    (by exact ⟨rfl, rfl, rfl, rfl, rfl, rfl⟩) (by norm_num) (by norm_num) (by norm_num)

/-- Claim C7, counterexample: a first AbortSession succeeds, but a second
abort of the same upload is not answered locally: the handler re-invokes the
Storage Gateway (one AbortMultipartUpload call), and since the backend
reports NoSuchUpload for the already-aborted upload, the second abort fails
with a generic 500 instead of returning success. -/
theorem c7_counterexample :
    (abort_multipart_upload s3ok "blacx" ⟨"g.pdf", "UID"⟩).1 = .ok ⟨"success"⟩ ∧
    (abort_multipart_upload s3noSuchUpload "blacx" ⟨"g.pdf", "UID"⟩).2 =
      [.abortMultipartUpload "blacx" "uploads/g.pdf" "UID"] ∧
    (abort_multipart_upload s3noSuchUpload "blacx" ⟨"g.pdf", "UID"⟩).1 =
      .httpError 500 "An error occurred (NoSuchUpload) when calling the AbortMultipartUpload operation: The specified upload does not exist." :=
  ⟨rfl, by decide, rfl⟩

/-- Claim C7, amended: AbortSession delegates to the Storage Gateway on
every call — exactly one gateway abort per request, so a repeated abort
re-invokes the Gateway — and returns success exactly when the Gateway
accepts; any idempotence is the backend's, not the service's, and there is
no local InvalidStateTransition for subsequent completions either. -/
theorem c7_amended (s3 : S3Client) (bucket : String) (req : MultipartUploadAbort) :
    (abort_multipart_upload s3 bucket req).2 =
      [.abortMultipartUpload bucket ("uploads/" ++ req.filename) req.uploadId] ∧
    ((abort_multipart_upload s3 bucket req).1 = .ok ⟨"success"⟩ ↔
      s3.abortMultipartUpload bucket ("uploads/" ++ req.filename) req.uploadId = .ok ()) := by
  unfold abort_multipart_upload
  rcases h : s3.abortMultipartUpload bucket ("uploads/" ++ req.filename) req.uploadId
    with e | u <;> simp [h]

/-- Claim C8, counterexample: a backend failure's internal diagnostic text —
including endpoint and credential identifiers carried in the boto3 client
error message — is echoed verbatim to the caller as the error detail. -/
theorem c8_counterexample :
    (complete_multipart_upload s3leak "blacx" ⟨"f.pdf", "UID", []⟩).1 =
      .httpError 500 "boto3 internal: endpoint https://bucket.s3.amazonaws.com, AWSAccessKeyId AKIAEXAMPLE" :=
  rfl

/-- Claim C8, amended: every error response does carry an HTTP status code
and a detail string, but the detail of a Gateway failure is the internal
exception's str echoed verbatim to the caller — backend exception content is
reflected back, though no stack-trace object is. -/
theorem c8_amended (s3 : S3Client) (bucket : String)
    (reqC : MultipartUploadComplete) (reqA : MultipartUploadAbort) (e e' : String) :
    (s3.completeMultipartUpload bucket ("uploads/" ++ reqC.filename)
        reqC.uploadId reqC.parts = .error e →
      (complete_multipart_upload s3 bucket reqC).1 = .httpError 500 e) ∧
    (s3.abortMultipartUpload bucket ("uploads/" ++ reqA.filename) reqA.uploadId = .error e' →
      (abort_multipart_upload s3 bucket reqA).1 = .httpError 500 e') := by
  constructor <;> intro h <;>
    simp [complete_multipart_upload, abort_multipart_upload, h, Exc.str]

/-- Claim C8, witness: the amended statement at a concrete failing backend. -/
theorem c8_witness :
    (complete_multipart_upload s3fail "blacx" ⟨"a.pdf", "U", []⟩).1 =
      .httpError 500 "boom" ∧
    (abort_multipart_upload s3fail "blacx" ⟨"a.pdf", "U"⟩).1 = .httpError 500 "boom" :=
  ⟨(c8_amended s3fail "blacx" ⟨"a.pdf", "U", []⟩ ⟨"a.pdf", "U"⟩ "boom" "boom").1 rfl,
   (c8_amended s3fail "blacx" ⟨"a.pdf", "U", []⟩ ⟨"a.pdf", "U"⟩ "boom" "boom").2 rfl⟩

/-- Claim C9: the client-supplied contentType field has no effect — two
initiation requests differing only in contentType produce identical
responses and identical gateway traces; the content type registered with the
backend is get_content_type of the filename (lowercased-extension lookup in
the static table), and extensions outside the table fall back to
application/octet-stream. -/
theorem c9_theorem (s3 : S3Client) (bucket : String) (now : Timestamp)
    (fn ct1 ct2 : String) :
    initiate_multipart_upload s3 bucket now ⟨fn, ct1⟩ =
      initiate_multipart_upload s3 bucket now ⟨fn, ct2⟩ ∧
    (initiate_multipart_upload s3 bucket now ⟨fn, ct1⟩).2.head? =
      some (.createMultipartUpload bucket (multipartKey now fn) (get_content_type fn)) ∧
    (∀ f : String, splitextExt (pyLower f) ∉ CONTENT_TYPES.map Prod.fst →
      get_content_type f = "application/octet-stream") := by
  refine ⟨rfl, ?_, ?_⟩
  · dsimp only [initiate_multipart_upload]
    cases s3.createMultipartUpload bucket (multipartKey now fn) (get_content_type fn) <;> rfl
  · intro f hf
    dsimp only [get_content_type]
    cases hfind : CONTENT_TYPES.find? (fun p => p.1 == splitextExt (pyLower f)) with
    | none => rfl
    | some p =>
      exfalso
      apply hf
      have h1 := List.find?_some hfind
      have h2 : p ∈ CONTENT_TYPES := List.mem_of_find?_eq_some hfind
      have h3 : p.1 = splitextExt (pyLower f) := by
        exact eq_of_beq h1
      rw [← h3]
      exact List.mem_map_of_mem Prod.fst h2

/-- Claim C9, witness: concrete requests differing only in contentType get
the same outcome, and an unknown extension falls back to the generic type. -/
theorem c9_witness :
    initiate_multipart_upload s3ok "blacx" ts0 ⟨"a.pdf", "text/plain"⟩ =
      initiate_multipart_upload s3ok "blacx" ts0 ⟨"a.pdf", "application/json"⟩ ∧
    get_content_type "weird.xyz" = "application/octet-stream" :=
  ⟨(c9_theorem s3ok "blacx" ts0 "a.pdf" "text/plain" "application/json").1,
   (c9_theorem s3ok "blacx" ts0 "a.pdf" "text/plain" "application/json").2.2
     "weird.xyz" (by decide)⟩

/-- Claim C10: completion and abort operate on the literal key uploads slash
request.filename — the single Gateway call each issues carries exactly that
key, with no registry lookup — while initiation returns a key that already
carries the uploads slash prefix; hence feeding initiation's key back as the
filename addresses uploads slash key, a different key from the one the
upload was opened under. -/
theorem c10_theorem :
    (∀ (s3 : S3Client) (bucket : String) (reqC : MultipartUploadComplete),
      (complete_multipart_upload s3 bucket reqC).2 =
        [.completeMultipartUpload bucket ("uploads/" ++ reqC.filename)
          reqC.uploadId reqC.parts]) ∧
    (∀ (s3 : S3Client) (bucket : String) (reqA : MultipartUploadAbort),
      (abort_multipart_upload s3 bucket reqA).2 =
        [.abortMultipartUpload bucket ("uploads/" ++ reqA.filename) reqA.uploadId]) ∧
    (∀ (s3 : S3Client) (bucket : String) (now : Timestamp)
        (req : MultipartUploadRequest) (r : InitiateMultipartResponse),
      (initiate_multipart_upload s3 bucket now req).1 = .ok r →
      r.key = multipartKey now req.filename) ∧
    (∀ (now : Timestamp) (fn : String),
      "uploads/" ++ multipartKey now fn ≠ multipartKey now fn) := by
  refine ⟨?_, ?_, ?_, ?_⟩
  · intro s3 bucket reqC
    unfold complete_multipart_upload
    cases s3.completeMultipartUpload bucket ("uploads/" ++ reqC.filename)
      reqC.uploadId reqC.parts <;> rfl
  · intro s3 bucket reqA
    unfold abort_multipart_upload
    cases s3.abortMultipartUpload bucket ("uploads/" ++ reqA.filename) reqA.uploadId <;> rfl
  · intro s3 bucket now req r h
    dsimp only [initiate_multipart_upload] at h
    cases hc : s3.createMultipartUpload bucket (multipartKey now req.filename)
        (get_content_type req.filename) with
    | error e => rw [hc] at h; simp at h
    | ok uid =>
      rw [hc] at h
      simp only [HttpResult.ok.injEq] at h
      rw [← h]
  · intro now fn h
    have hlen := congrArg String.length h
    rw [string_length_append] at hlen
    have h8 : ("uploads/" : String).length = 8 := rfl
    omega

/-- Claim C10, witness: at a concrete initiation the returned key is the
prefixed one, and re-prefixing it changes it. -/
theorem c10_witness :
    (initiate_multipart_upload s3ok "blacx" ts0 ⟨"report.pdf", ""⟩).1 = .ok initResp0 ∧
    initResp0.key = multipartKey ts0 "report.pdf" ∧
    "uploads/" ++ multipartKey ts0 "report.pdf" ≠ multipartKey ts0 "report.pdf" :=
  ⟨rfl,
   c10_theorem.2.2.1 s3ok "blacx" ts0 ⟨"report.pdf", ""⟩ initResp0 rfl,
   c10_theorem.2.2.2 ts0 "report.pdf"⟩
